import Mathlib

/-!
Shallow embedding of the BloomTracker pollen client
(`src/bloomtracker/client.py` and `src/bloomtracker/async_client.py`).

Modelling conventions:
  * Python `dict`s become insertion-ordered association lists
    `List (String × α)`; assignment `d[k] = v` is `dictInsert` (update in
    place if the key exists, else append) and `d[k]` / `k in d` are
    `alookup` / `(alookup …).isSome`.
  * Python `float` values produced by `calculate_value` are modelled as `ℚ`;
    every value the claims exercise is a small half-integer, exactly
    representable in binary floating point, so the rational model is
    observationally faithful.
  * Fallible code returns `Except PyErr α`; `PyErr` distinguishes the
    exception classes the source branches on.
  * Methods that mutate `self` become functions `ApiState → … → ApiState × …`
    written so that a raised exception returns the state as mutated up to the
    raise point, exactly as in Python.
  * `datetime.datetime.now(pytz.timezone('Europe/Berlin'))` is modelled by
    passing the current Berlin civil date explicitly (`refDate`); adding
    `timedelta(days=n)` to an aware datetime advances the wall-clock calendar
    date by exactly `n` days, so date-level arithmetic is faithful.
  * The transport collaborator (`requests.get` / `aiohttp`) is an oracle
    `responses : ℕ → Option Payload` giving the outcome of the i-th HTTP
    attempt; the cache file is an explicit `CacheState` value.
-/

namespace BloomTracker

/-- One exception class per behaviour the source distinguishes.
`valueError` covers `int()` parse failures and `datetime` parse failures,
`keyError` a missing dictionary key, `dwdError` the package's own
`DwdPollenError` (which does NOT derive from the classes caught by
`DwdPollenApi.update`). -/
inductive PyErr where
  | valueError : PyErr
  | keyError : String → PyErr
  | dwdError : PyErr
deriving DecidableEq, Repr

/-- Python dict assignment `d[k] = v`: replace in place if present, else append. -/
def dictInsert {α : Type} (d : List (String × α)) (k : String) (v : α) :
    List (String × α) :=
  match d with
  | [] => [(k, v)]
  | (k', v') :: rest => if k' = k then (k, v) :: rest else (k', v') :: dictInsert rest k v

/-- Python dict lookup `d[k]` (first binding wins; `dictInsert` keeps keys unique). -/
def alookup {α : Type} (d : List (String × α)) (k : String) : Option α :=
  match d with
  | [] => none
  | (k', v) :: rest => if k' = k then some v else alookup rest k

theorem alookup_dictInsert {α : Type} (d : List (String × α)) (k k' : String) (v : α) :
    alookup (dictInsert d k v) k' = if k' = k then some v else alookup d k' := by
  induction d with
  | nil =>
    by_cases h : k = k'
    · subst h; simp [dictInsert, alookup]
    · have h' : ¬ k' = k := fun hc => h hc.symm
      simp [dictInsert, alookup, h, h']
  | cons p rest ih =>
    obtain ⟨k₀, v₀⟩ := p
    simp only [dictInsert]
    by_cases h0 : k₀ = k
    · subst h0
      simp only [if_pos rfl, alookup]
      by_cases h : k₀ = k'
      · subst h; simp
      · have h' : ¬ k' = k₀ := fun hc => h hc.symm
        simp [h, h']
    · simp only [if_neg h0, alookup, ih]
      by_cases h : k₀ = k'
      · subst h
        simp [h0]
      · simp [h]

/- ### Digits, Python `int()` and `str.split('-')` -/

/-- The decimal digit character for `n ≤ 9`. -/
def dChar (n : Nat) : Char := Char.ofNat (48 + n)

/-- The numeric value of a decimal digit character, if it is one. -/
def charVal (c : Char) : Option Nat :=
  if 48 ≤ c.toNat ∧ c.toNat ≤ 57 then some (c.toNat - 48) else none

/-- Left-to-right accumulation of a digit string. -/
def parseDigitsGo (acc : Nat) : List Char → Option Nat
  | [] => some acc
  | c :: rest =>
    match charVal c with
    | some d => parseDigitsGo (acc * 10 + d) rest
    | none => none

/-- A nonempty all-digit string read as a natural number, else `none`. -/
def parseDigits (l : List Char) : Option Nat :=
  match l with
  | [] => none
  | _ => parseDigitsGo 0 l

/-- Python `int(s)` on one hyphen-free segment: optional sign, then a nonempty
digit run.  `int('')` and `int('x')` raise `ValueError` (here: `none`). -/
def parsePyInt (l : List Char) : Option Int :=
  match l with
  | [] => none
  | c :: rest =>
    if c = '-' then (parseDigits rest).map (fun n => -(n : Int))
    else if c = '+' then (parseDigits rest).map (fun n => (n : Int))
    else (parseDigits (c :: rest)).map (fun n => (n : Int))

/-- Python `s.split(sep)` for a one-character separator: keeps empty segments,
`''.split('-') = ['']`, `'-1'.split('-') = ['', '1']`. -/
def splitOnChar (sep : Char) : List Char → List (List Char)
  | [] => [[]]
  | c :: rest =>
    if c = sep then [] :: splitOnChar sep rest
    else
      match splitOnChar sep rest with
      | [] => [[c]]
      | g :: gs => (c :: g) :: gs

/-- Fuel-driven digit printer (the fuel only makes the recursion structural;
`natRepr` always supplies enough). -/
def natReprGo : Nat → Nat → List Char
  | 0, n => [dChar n]
  | f + 1, n => if n < 10 then [dChar n] else natReprGo f (n / 10) ++ [dChar (n % 10)]

/-- Decimal digits of a natural number (what Python's `str(n)` prints for `n ≥ 0`). -/
def natRepr (n : Nat) : List Char := natReprGo n n

/-- Python `str(i)` for an integer. -/
def intRepr (i : Int) : List Char :=
  if i < 0 then '-' :: natRepr (-i).toNat else natRepr i.toNat

/- ### `calculate_value` and `get_color_for_value`
(`client.py` lines 120-137, duplicated verbatim in `async_client.py`). -/

/-- Left-to-right `int()` over every segment, stopping at the first
`ValueError`, exactly like the `for item in items: result += int(item)` loop. -/
def mapOptList {α β : Type} (f : α → Option β) : List α → Option (List β)
  | [] => some []
  | a :: rest =>
    match f a, mapOptList f rest with
    | some b, some bs => some (b :: bs)
    | _, _ => none

/-- `calculate_value`: split the raw code on `'-'`, `int()` every segment, and
return the arithmetic mean.  Any non-integer segment raises `ValueError`. -/
def calculate_value (s : String) : Option ℚ :=
  match mapOptList parsePyInt (splitOnChar '-' s.toList) with
  | none => none
  | some vals => some ((vals.sum : ℚ) / (((splitOnChar '-' s.toList).length : Nat) : ℚ))

/-- `get_color_for_value`: inclusive-low step function from value to color. -/
def get_color_for_value (v : ℚ) : String :=
  if v ≤ 0 then "#00FF00"
  else if v ≤ 1 then "#ADFF2F"
  else if v ≤ 2 then "#FFFF00"
  else if v ≤ 5/2 then "#FFA500"
  else "#FF0000"

/- ### `build_legend` (`client.py` lines 61-75) -/

/-- Does the needle occur at the start of the haystack? -/
def leadsWith : List Char → List Char → Bool
  | [], _ => true
  | _ :: _, [] => false
  | a :: as_, b :: bs => a = b && leadsWith as_ bs

/-- Does the needle occur anywhere in the haystack (Python `needle in hay`)? -/
def containsSeq (needle : List Char) : List Char → Bool
  | [] => leadsWith needle []
  | c :: rest => leadsWith needle (c :: rest) || containsSeq needle rest

/-- Python `'_desc' in key`. -/
def hasDescMark (key : String) : Bool := containsSeq "_desc".toList key.toList

/-- The recursion behind `build_legend`: iterate over all items of the original
dict, skip keys containing `'_desc'`, and for the rest look the `_desc` sibling
up in the WHOLE original dict, accumulating `value ↦ description`. -/
def build_legendGo (legend : List (String × String)) :
    List (String × String) → List (String × String) → Except PyErr (List (String × String))
  | [], acc => Except.ok acc
  | (k, v) :: rest, acc =>
    if hasDescMark k then build_legendGo legend rest acc
    else
      match alookup legend (k ++ "_desc") with
      | none => Except.error (PyErr.keyError (k ++ "_desc"))
      | some d => build_legendGo legend rest (dictInsert acc v d)

/-- `build_legend`: convert the API legend (code / `code_desc` sibling pairs)
into a `raw value ↦ description` mapping. -/
def build_legend (legend : List (String × String)) :
    Except PyErr (List (String × String)) :=
  build_legendGo legend legend []

/-- Modelled from the spec's words for §4.1 (with the substring amendment):
filter out the keys containing `'_desc'`, then for each remaining key `K` emit
`value_at[K] ↦ value_at[K ++ "_desc"]`, failing on a missing sibling. -/
def build_legend_spec (legend : List (String × String)) :
    Except PyErr (List (String × String)) :=
  (legend.filter (fun kv => ! hasDescMark kv.1)).foldlM
    (fun acc kv =>
      match alookup legend (kv.1 ++ "_desc") with
      | none => Except.error (PyErr.keyError (kv.1 ++ "_desc"))
      | some d => Except.ok (dictInsert acc kv.2 d))
    []

/- ### Civil dates (Europe/Berlin wall clock) -/

/-- Days since 1970-01-01 (Howard Hinnant's civil calendar algorithm;
Lean's `Int` division truncates toward zero exactly like the C++ original). -/
def daysFromCivil (y m d : Int) : Int :=
  let y' := if m ≤ 2 then y - 1 else y
  let era := (if 0 ≤ y' then y' else y' - 399) / 400
  let yoe := y' - era * 400
  let mp := (m + 9) % 12
  let doy := (153 * mp + 2) / 5 + d - 1
  let doe := yoe * 365 + yoe / 4 - yoe / 100 + doy
  era * 146097 + doe - 719468

/-- A calendar date as Python's `datetime.date` sees it. -/
structure Date where
  year : Int
  month : Int
  day : Int
deriving DecidableEq, Repr

/-- Inverse of `daysFromCivil` (same reference, truncating division). -/
def civilFromDays (z : Int) : Date :=
  let z' := z + 719468
  let era := (if 0 ≤ z' then z' else z' - 146096) / 146097
  let doe := z' - era * 146097
  let yoe := (doe - doe / 1460 + doe / 36524 - doe / 146096) / 365
  let y := yoe + era * 400
  let doy := doe - (365 * yoe + yoe / 4 - yoe / 100)
  let mp := (5 * doy + 2) / 153
  let d := doy - (153 * mp + 2) / 5 + 1
  let m := if mp < 10 then mp + 3 else mp - 9
  ⟨if mp < 10 then y else y + 1, m, d⟩

/-- `today + datetime.timedelta(days := n)` at the calendar-date level. -/
def Date.addDays (d : Date) (n : Int) : Date :=
  civilFromDays (daysFromCivil d.year d.month d.day + n)

/-- Python `datetime.weekday()`: Monday = 0 … Sunday = 6
(1970-01-01 was a Thursday). -/
def pyWeekday (d : Date) : Int :=
  (daysFromCivil d.year d.month d.day + 3) % 7

/-- Two decimal digits, zero padded (`n` below 100). -/
def pad2 (n : Int) : List Char := [dChar (n.toNat / 10 % 10), dChar (n.toNat % 10)]

/-- Four decimal digits, zero padded (`n` below 10000). -/
def pad4 (n : Int) : List Char :=
  [dChar (n.toNat / 1000 % 10), dChar (n.toNat / 100 % 10), dChar (n.toNat / 10 % 10),
   dChar (n.toNat % 10)]

/-- `strftime('%Y-%m-%d')`. -/
def fmtDate (d : Date) : String :=
  String.mk (pad4 d.year ++ '-' :: pad2 d.month ++ '-' :: pad2 d.day)

/- ### Naive datetimes, `isoformat`/`fromisoformat`, `strptime('%Y-%m-%d %H:%M Uhr')` -/

/-- A naive `datetime.datetime` (no time zone), to the second: everything
`strptime('%Y-%m-%d %H:%M Uhr')` and `fromisoformat` of a saved snapshot carry. -/
structure DateTime where
  year : Nat
  month : Nat
  day : Nat
  hour : Nat
  minute : Nat
  second : Nat
deriving DecidableEq, Repr

/-- Two digit characters read as a number below 100. -/
def parse2 (a b : Char) : Option Nat :=
  match charVal a, charVal b with
  | some x, some y => some (10 * x + y)
  | _, _ => none

/-- Four digit characters read as a number below 10000. -/
def parse4 (a b c d : Char) : Option Nat :=
  match charVal a, charVal b, charVal c, charVal d with
  | some x, some y, some z, some w => some (1000 * x + 100 * y + 10 * z + w)
  | _, _, _, _ => none

/-- `datetime.isoformat()` of a naive datetime with zero microseconds:
`YYYY-MM-DDTHH:MM:SS`. -/
def isoformat (d : DateTime) : String :=
  String.mk (pad4 d.year ++ '-' :: pad2 d.month ++ '-' :: pad2 d.day ++
    'T' :: pad2 d.hour ++ ':' :: pad2 d.minute ++ ':' :: pad2 d.second)

/-- `datetime.fromisoformat`, restricted to the exact shape `isoformat`
emits (the only shape the cache file ever contains); anything else raises
`ValueError`, modelled as `none`. -/
def fromisoformatOpt (s : String) : Option DateTime :=
  match s.toList with
  | [y1, y2, y3, y4, c1, m1, m2, c2, d1, d2, c3, h1, h2, c4, n1, n2, c5, s1, s2] =>
    if c1 = '-' ∧ c2 = '-' ∧ c3 = 'T' ∧ c4 = ':' ∧ c5 = ':' then
      match parse4 y1 y2 y3 y4, parse2 m1 m2, parse2 d1 d2,
            parse2 h1 h2, parse2 n1 n2, parse2 s1 s2 with
      | some y, some mo, some d, some h, some mi, some se =>
        if 1 ≤ mo ∧ mo ≤ 12 ∧ 1 ≤ d ∧ d ≤ 31 ∧ h ≤ 23 ∧ mi ≤ 59 ∧ se ≤ 59 then
          some ⟨y, mo, d, h, mi, se⟩
        else none
      | _, _, _, _, _, _ => none
    else none
  | _ => none

/-- `datetime.strptime(s, '%Y-%m-%d %H:%M Uhr')`; a mismatch raises `ValueError`. -/
def strptimeUhr (s : String) : Except PyErr DateTime :=
  match s.toList with
  | [y1, y2, y3, y4, '-', m1, m2, '-', d1, d2, ' ', h1, h2, ':', n1, n2, ' ', 'U', 'h', 'r'] =>
    match parse4 y1 y2 y3 y4, parse2 m1 m2, parse2 d1 d2, parse2 h1 h2, parse2 n1 n2 with
    | some y, some mo, some d, some h, some mi =>
      if 1 ≤ mo ∧ mo ≤ 12 ∧ 1 ≤ d ∧ d ≤ 31 ∧ h ≤ 23 ∧ mi ≤ 59 then
        Except.ok ⟨y, mo, d, h, mi, 0⟩
      else Except.error PyErr.valueError
    | _, _, _, _, _ => Except.error PyErr.valueError
  | _ => Except.error PyErr.valueError

/- ### The data model: forecast entries, regions, payloads, client state -/

/-- One dated forecast entry as built by `build_values`. -/
structure Entry where
  value : ℚ
  raw : String
  human : String
  color : String
deriving DecidableEq, Repr

/-- One allergen's three raw day-buckets as delivered by the API. -/
structure Bucket where
  today : String
  tomorrow : String
  dayafter_to : String
deriving DecidableEq, Repr

/-- A JSON-tree leaf that is either a live `datetime` object or the string it
serializes to; `DateTimeEncoder` turns the former into the latter on save and
nothing ever turns it back. -/
inductive DTVal where
  | dt : DateTime → DTVal
  | str : String → DTVal
deriving DecidableEq, Repr

/-- One region entry of the payload's `content` list. -/
structure RegionIn where
  region_id : Int
  region_name : String
  partregion_id : Int
  partregion_name : String
  pollen : List (String × Bucket)
deriving DecidableEq, Repr

/-- One built region forecast (`new_region` in `DwdPollenApi.update`). -/
structure Region where
  region_id : Int
  region_name : String
  partregion_id : Int
  partregion_name : String
  last_update : DTVal
  next_update : DTVal
  pollen : List (String × List (String × Entry))
deriving DecidableEq, Repr

/-- The in-memory Store: `self.data`. -/
abbrev Store := List (String × Region)

/-- A successfully fetched and JSON-decoded API payload. -/
structure Payload where
  last_update : String
  next_update : String
  legend : List (String × String)
  content : List RegionIn
deriving DecidableEq, Repr

/-- The mutable attributes of a `DwdPollenApi` / `AsyncDwdPollenApi` object. -/
structure ApiState where
  data : Store
  legend : Option (List (String × String))
  last_update : Option DateTime
  next_update : Option DateTime
  cache_duration : Int
deriving DecidableEq, Repr

/-- The composite Store key `f"{region_id}-{partregion_id}"`. -/
def compKey (r p : Int) : String := String.mk (intRepr r ++ '-' :: intRepr p)

/- ### `build_pollen` (`client.py` lines 99-169; the async copy is verbatim) -/

/-- `build_values`: decode one raw code into a forecast entry.  Python
evaluates `calculate_value(value)` (possible `ValueError`) before the legend
lookup `self.legend[value]` (possible `KeyError`); the surrounding update has
always set the legend before this runs, so the `legend is None` guard of the
source is never taken in the modelled call sites. -/
def build_values (legend : List (String × String)) (value : String) : Except PyErr Entry :=
  match calculate_value value with
  | none => Except.error PyErr.valueError
  | some v =>
    match alookup legend value with
    | none => Except.error (PyErr.keyError value)
    | some h =>
      Except.ok { value := v, raw := value, human := h, color := get_color_for_value v }

/-- `build_pollen`: weekday-dependent mapping of the three raw buckets onto
calendar dates, anchored at the current Berlin civil date `refDate`. -/
def build_pollen (refDate : Date) (legend : List (String × String)) (allergen : Bucket) :
    Except PyErr (List (String × Entry)) :=
  let today := refDate
  let tomorrow := refDate.addDays 1
  let day_after_tomorrow := refDate.addDays 2
  let w := pyWeekday refDate
  if w < 4 then
    match build_values legend allergen.today with
    | Except.error e => Except.error e
    | Except.ok e1 =>
      match build_values legend allergen.tomorrow with
      | Except.error e => Except.error e
      | Except.ok e2 =>
        Except.ok (dictInsert (dictInsert [] (fmtDate today) e1) (fmtDate tomorrow) e2)
  else if w = 4 then
    match build_values legend allergen.today with
    | Except.error e => Except.error e
    | Except.ok e1 =>
      match build_values legend allergen.tomorrow with
      | Except.error e => Except.error e
      | Except.ok e2 =>
        let base := dictInsert (dictInsert [] (fmtDate today) e1) (fmtDate tomorrow) e2
        if allergen.dayafter_to ≠ "-1" then
          match build_values legend allergen.dayafter_to with
          | Except.error e => Except.error e
          | Except.ok e3 => Except.ok (dictInsert base (fmtDate day_after_tomorrow) e3)
        else Except.ok base
  else if w = 5 then
    match build_values legend allergen.tomorrow with
    | Except.error e => Except.error e
    | Except.ok e1 =>
      let base := dictInsert [] (fmtDate today) e1
      if allergen.dayafter_to ≠ "-1" then
        match build_values legend allergen.dayafter_to with
        | Except.error e => Except.error e
        | Except.ok e3 => Except.ok (dictInsert base (fmtDate day_after_tomorrow) e3)
      else Except.ok base
  else if w = 6 then
    if allergen.dayafter_to ≠ "-1" then
      match build_values legend allergen.dayafter_to with
      | Except.error e => Except.error e
      | Except.ok e3 => Except.ok (dictInsert [] (fmtDate day_after_tomorrow) e3)
    else Except.ok []
  else Except.ok []

/- ### The update pass (`DwdPollenApi.update` lines 237-278,
`AsyncDwdPollenApi.update` lines 134-156) -/

/-- The inner allergen loop of one region: `new_region['pollen'][allergen] = …`. -/
def buildPollenMapGo (refd : Date) (lg : List (String × String)) :
    List (String × Bucket) → List (String × List (String × Entry)) →
    Except PyErr (List (String × List (String × Entry)))
  | [], acc => Except.ok acc
  | (a, b) :: rest, acc =>
    match build_pollen refd lg b with
    | Except.error e => Except.error e
    | Except.ok np => buildPollenMapGo refd lg rest (dictInsert acc a np)

/-- Build one `new_region` dictionary; it reaches `self.data` only if every
allergen of the region builds. -/
def buildRegion (refd : Date) (lg : List (String × String)) (lu nu : DateTime)
    (r : RegionIn) : Except PyErr Region :=
  match buildPollenMapGo refd lg r.pollen [] with
  | Except.error e => Except.error e
  | Except.ok pm =>
    Except.ok
      { region_id := r.region_id, region_name := r.region_name,
        partregion_id := r.partregion_id, partregion_name := r.partregion_name,
        last_update := DTVal.dt lu, next_update := DTVal.dt nu, pollen := pm }

/-- The `for region in data['content']` loop: each fully built region is
assigned into `self.data`; the first failure stops the loop with the state as
mutated so far (`false` = the raised exception). -/
def updateRegions (refd : Date) (lg : List (String × String)) (lu nu : DateTime)
    (st : ApiState) : List RegionIn → ApiState × Bool
  | [] => (st, true)
  | r :: rest =>
    match buildRegion refd lg lu nu r with
    | Except.error _ => (st, false)
    | Except.ok reg =>
      updateRegions refd lg lu nu
        { st with data := dictInsert st.data (compKey r.region_id r.partregion_id) reg } rest

/-- The Store built from a list of regions, skipping ones that fail
(used only to DESCRIBE the partial Store an aborted pass leaves behind;
the pass itself never skips). -/
def builtStoreFrom (refd : Date) (lg : List (String × String)) (lu nu : DateTime)
    (d0 : Store) (rs : List RegionIn) : Store :=
  rs.foldl (fun acc r =>
    match buildRegion refd lg lu nu r with
    | Except.ok reg => dictInsert acc (compKey r.region_id r.partregion_id) reg
    | Except.error _ => acc) d0

/-- The blocking rebuild from an already fetched payload
(`DwdPollenApi.update` after `get_data` returns): timestamps, legend, then
`self.data = {}` and the region loop.  Every failure is caught by the
`except (RequestException, ValueError, KeyError, OSError)` clause and turned
into the return value `False`, with `self` keeping all mutations made before
the raise; the final `save_to_cache` is best-effort and never changes the
in-memory state. -/
def updateFromPayload (st : ApiState) (p : Payload) (refd : Date) : ApiState × Bool :=
  match strptimeUhr p.last_update with
  | Except.error _ => (st, false)
  | Except.ok lu =>
    let st1 := { st with last_update := some lu }
    match strptimeUhr p.next_update with
    | Except.error _ => (st1, false)
    | Except.ok nu =>
      let st2 := { st1 with next_update := some nu }
      match build_legend p.legend with
      | Except.error _ => (st2, false)
      | Except.ok lg =>
        let st3 := { st2 with legend := some lg, data := [] }
        updateRegions refd lg lu nu st3 p.content

/-- The asynchronous rebuild (`AsyncDwdPollenApi.update`): identical except
that `self.data` is NEVER reset to `{}` — regions are assigned into the
existing dictionary — and exceptions propagate to the caller (`false` here
means the coroutine raised, with `self` keeping the partial mutations). -/
def updateFromPayloadAsync (st : ApiState) (p : Payload) (refd : Date) : ApiState × Bool :=
  match strptimeUhr p.last_update with
  | Except.error _ => (st, false)
  | Except.ok lu =>
    let st1 := { st with last_update := some lu }
    match strptimeUhr p.next_update with
    | Except.error _ => (st1, false)
    | Except.ok nu =>
      let st2 := { st1 with next_update := some nu }
      match build_legend p.legend with
      | Except.error _ => (st2, false)
      | Except.ok lg =>
        let st3 := { st2 with legend := some lg }
        updateRegions refd lg lu nu st3 p.content

/- ### The cache file (`load_from_cache` lines 178-214, `save_to_cache` 216-235) -/

/-- What the snapshot file holds once JSON-decoded.  In a file written by
`save_to_cache` every key is present (possibly with a `null` value, modelled
by the `Option`s); `.get`'s defaults make an absent key behave like `{}` for
`data`/`legend` and like `null` for the timestamps, so this shape loses no
behaviour the claims touch. -/
structure CacheContent where
  data : Store
  legend : Option (List (String × String))
  last_update : Option String
  next_update : Option String
deriving DecidableEq, Repr

/-- The readable-file states `load_from_cache` distinguishes: an `IOError` on
open/read (caught), content `json.load` rejects (caught `JSONDecodeError`),
or decoded content. -/
inductive CacheRaw where
  | unreadable : CacheRaw
  | malformed : CacheRaw
  | decoded : CacheContent → CacheRaw
deriving DecidableEq, Repr

/-- The snapshot location: absent, or a file with a modification time. -/
inductive CacheState where
  | missing : CacheState
  | file : Int → CacheRaw → CacheState
deriving DecidableEq, Repr

/-- How a `load_from_cache()` call ends: `True`, `False`, or an uncaught
exception (only `ValueError` from `fromisoformat`, which the
`except (IOError, JSONDecodeError)` clause does not catch). -/
inductive LoadOutcome where
  | usable : LoadOutcome
  | notUsable : LoadOutcome
  | exn : PyErr → LoadOutcome
deriving DecidableEq, Repr

/-- `load_from_cache`, with `now` the value of `time.time()`. -/
def load_from_cache (st : ApiState) (cache : CacheState) (now : Int) :
    ApiState × LoadOutcome :=
  match cache with
  | CacheState.missing => (st, LoadOutcome.notUsable)
  | CacheState.file mtime raw =>
    if st.cache_duration < now - mtime then (st, LoadOutcome.notUsable)
    else
      match raw with
      | CacheRaw.unreadable => (st, LoadOutcome.notUsable)
      | CacheRaw.malformed => (st, LoadOutcome.notUsable)
      | CacheRaw.decoded c =>
        let st1 := { st with data := c.data, legend := c.legend }
        let step1 : ApiState × Option PyErr :=
          match c.last_update with
          | none => (st1, none)
          | some s =>
            if s = "" then (st1, none)
            else
              match fromisoformatOpt s with
              | none => (st1, some PyErr.valueError)
              | some d => ({ st1 with last_update := some d }, none)
        match step1 with
        | (st2, some e) => (st2, LoadOutcome.exn e)
        | (st2, none) =>
          let step2 : ApiState × Option PyErr :=
            match c.next_update with
            | none => (st2, none)
            | some s =>
              if s = "" then (st2, none)
              else
                match fromisoformatOpt s with
                | none => (st2, some PyErr.valueError)
                | some d => ({ st2 with next_update := some d }, none)
          match step2 with
          | (st3, some e) => (st3, LoadOutcome.exn e)
          | (st3, none) =>
            if st3.data = [] then (st3, LoadOutcome.notUsable)
            else (st3, LoadOutcome.usable)

/-- `DateTimeEncoder` applied to one embedded timestamp. -/
def serDTV : DTVal → DTVal
  | DTVal.dt d => DTVal.str (isoformat d)
  | DTVal.str s => DTVal.str s

/-- `DateTimeEncoder` applied to one region (its two timestamps are the only
datetime objects in the tree). -/
def serRegion (r : Region) : Region :=
  { r with last_update := serDTV r.last_update, next_update := serDTV r.next_update }

/-- The JSON round trip `json.dump`/`json.load` applies to the Store. -/
def serStore (d : Store) : Store := d.map (fun kv => (kv.1, serRegion kv.2))

/-- The decoded content of the file `save_to_cache` writes (a write failure is
swallowed and changes nothing in memory, so only the written content matters). -/
def saveContent (st : ApiState) : CacheContent :=
  { data := serStore st.data, legend := st.legend,
    last_update := st.last_update.map isoformat,
    next_update := st.next_update.map isoformat }

/- ### The transport (`get_data` lines 23-58) and the orchestrating `update` -/

/-- The retry loop of `get_data`, with `gas = retry_count - attempt` so the
recursion is structural.  `responses i` is the outcome of the i-th HTTP
attempt (`none` = `RequestException`/`ValueError`/`KeyError` in the `try`).
Returns the result, the number of transport attempts actually made, and the
list of `time.sleep` delays performed (one entry per sleep, each of
`retry_delay` seconds, only between attempts). -/
def get_dataGo (responses : Nat → Option Payload) (retry_delay : Nat) :
    Nat → Nat → List Nat → Except PyErr Payload × Nat × List Nat
  | 0, attempt, sleeps => (Except.error PyErr.dwdError, attempt, sleeps)
  | g + 1, attempt, sleeps =>
    match responses attempt with
    | some p => (Except.ok p, attempt + 1, sleeps)
    | none =>
      match g with
      | 0 => (Except.error PyErr.dwdError, attempt + 1, sleeps)
      | g' + 1 => get_dataGo responses retry_delay (g' + 1) (attempt + 1) (sleeps ++ [retry_delay])

/-- `get_data(url, timeout, retry_count, retry_delay)`: on exhaustion it raises
the aggregated `DwdPollenError` — which `DwdPollenApi.update`'s `except` tuple
does NOT catch. -/
def get_data (responses : Nat → Option Payload) (retry_count retry_delay : Nat) :
    Except PyErr Payload × Nat × List Nat :=
  get_dataGo responses retry_delay retry_count 0 []

/-- How an `update()` call ends: a return value or an uncaught exception. -/
inductive UOutcome where
  | ret : Bool → UOutcome
  | exn : PyErr → UOutcome
deriving DecidableEq, Repr

/-- The result of one `update()` call: the state afterwards, how the call
ended, and how many transport attempts it made. -/
structure UpdRes where
  st : ApiState
  outcome : UOutcome
  attempts : Nat
deriving DecidableEq, Repr

/-- The fetch-and-rebuild phase of `DwdPollenApi.update` (inside the `try`),
with the source defaults `retry_count = 3`, `retry_delay = 2`. -/
def fetchAndRebuild (st : ApiState) (responses : Nat → Option Payload) (refd : Date) :
    UpdRes :=
  match get_data responses 3 2 with
  | (Except.error e, n, _) => ⟨st, UOutcome.exn e, n⟩
  | (Except.ok p, n, _) =>
    let r := updateFromPayload st p refd
    ⟨r.1, UOutcome.ret r.2, n⟩

/-- `DwdPollenApi.update(force)`: the cache gate runs OUTSIDE the `try`, so a
`ValueError` from a malformed cached timestamp propagates. -/
def update (st : ApiState) (cache : CacheState) (now : Int)
    (responses : Nat → Option Payload) (refd : Date) (force : Bool) : UpdRes :=
  if force then fetchAndRebuild st responses refd
  else
    match load_from_cache st cache now with
    | (st', LoadOutcome.usable) => ⟨st', UOutcome.ret true, 0⟩
    | (st', LoadOutcome.exn e) => ⟨st', UOutcome.exn e, 0⟩
    | (st', LoadOutcome.notUsable) => fetchAndRebuild st' responses refd

/-- `DwdPollenApi.get_pollen(region_id, partregion_id)` (lines 280-303).
The last component counts the `self.update(force=True)` calls made. -/
def get_pollen (st : ApiState) (cache : CacheState) (now : Int)
    (responses : Nat → Option Payload) (refd : Date) (region_id partregion_id : Int) :
    ApiState × Except PyErr Region × Nat :=
  let key := compKey region_id partregion_id
  match alookup st.data key with
  | some r => (st, Except.ok r, 0)
  | none =>
    match update st cache now responses refd true with
    | ⟨st', UOutcome.exn e, _⟩ => (st', Except.error e, 1)
    | ⟨st', UOutcome.ret _, _⟩ =>
      match alookup st'.data key with
      | some r => (st', Except.ok r, 1)
      | none => (st', Except.error (PyErr.keyError key), 1)

/- ### Helper lemmas: digits, `natRepr`, `splitOnChar`, `calculate_value` -/

theorem charVal_dChar (n : Nat) (h : n ≤ 9) : charVal (dChar n) = some n := by
  interval_cases n <;> decide

theorem parseDigitsGo_append (acc : Nat) (l1 l2 : List Char) :
    parseDigitsGo acc (l1 ++ l2) =
      match parseDigitsGo acc l1 with
      | some a => parseDigitsGo a l2
      | none => none := by
  induction l1 generalizing acc with
  | nil => simp [parseDigitsGo]
  | cons c rest ih =>
    simp only [List.cons_append, parseDigitsGo]
    cases charVal c with
    | none => rfl
    | some d => exact ih _

theorem natReprGo_fuel_ge (f : Nat) :
    ∀ n, n ≤ f → natReprGo f n = natReprGo n n := by
  induction f using Nat.strong_induction_on with
  | _ f ih =>
    intro n hn
    match f, n with
    | 0, 0 => rfl
    | f' + 1, 0 => simp [natReprGo]
    | f' + 1, m + 1 =>
      by_cases h : m + 1 < 10
      · simp [natReprGo, h]
      · have hdiv : (m + 1) / 10 ≤ f' := by omega
        have hdiv2 : (m + 1) / 10 ≤ m := by omega
        simp only [natReprGo, h, if_false]
        rw [ih f' (by omega) ((m + 1) / 10) hdiv, ← ih m (by omega) ((m + 1) / 10) hdiv2]

/-- The recursion `natRepr` satisfies (used in place of definitional unfolding). -/
theorem natRepr_eq (n : Nat) :
    natRepr n = if n < 10 then [dChar n] else natRepr (n / 10) ++ [dChar (n % 10)] := by
  unfold natRepr
  match n with
  | 0 => simp [natReprGo]
  | m + 1 =>
    by_cases h : m + 1 < 10
    · simp [natReprGo, h]
    · have hdiv : (m + 1) / 10 ≤ m := by omega
      simp only [natReprGo, h, if_false]
      rw [natReprGo_fuel_ge m ((m + 1) / 10) hdiv]

theorem parseDigitsGo_natRepr (acc n : Nat) :
    ∃ k, parseDigitsGo acc (natRepr n) = some (acc * 10 ^ k + n) ∧ 0 < k := by
  induction n using Nat.strong_induction_on generalizing acc with
  | _ n ih =>
    rw [natRepr_eq]
    by_cases h : n < 10
    · refine ⟨1, ?_, by omega⟩
      simp only [h, if_true, parseDigitsGo, charVal_dChar n (by omega)]
      simp [pow_one]
    · simp only [h, if_false]
      rw [parseDigitsGo_append]
      obtain ⟨k, hk, hkpos⟩ := ih (n / 10) (Nat.div_lt_self (by omega) (by norm_num)) acc
      rw [hk]
      refine ⟨k + 1, ?_, by omega⟩
      simp only [parseDigitsGo, charVal_dChar (n % 10) (by omega)]
      congr 1
      have hA : acc * 10 ^ (k + 1) = acc * 10 ^ k * 10 := by ring
      rw [hA]
      omega

theorem natRepr_ne_nil (n : Nat) : natRepr n ≠ [] := by
  rw [natRepr_eq]
  by_cases h : n < 10 <;> simp [h]

theorem parseDigits_natRepr (n : Nat) : parseDigits (natRepr n) = some n := by
  have hne := natRepr_ne_nil n
  obtain ⟨k, hk, -⟩ := parseDigitsGo_natRepr 0 n
  unfold parseDigits
  match hmm : natRepr n with
  | [] => exact absurd hmm hne
  | c :: rest =>
    rw [← hmm, hk]
    simp

theorem natRepr_mem_digit (n : Nat) (c : Char) (hc : c ∈ natRepr n) :
    ∃ d, d ≤ 9 ∧ c = dChar d := by
  induction n using Nat.strong_induction_on with
  | _ n ih =>
    rw [natRepr_eq] at hc
    by_cases h : n < 10
    · simp only [h, if_true, List.mem_singleton] at hc
      exact ⟨n, by omega, hc⟩
    · simp only [h, if_false, List.mem_append, List.mem_singleton] at hc
      rcases hc with hc | hc
      · exact ih (n / 10) (Nat.div_lt_self (by omega) (by norm_num)) hc
      · exact ⟨n % 10, by omega, hc⟩

theorem dChar_ne (n : Nat) (h : n ≤ 9) (c : Char) (hc : charVal c = none) : dChar n ≠ c := by
  intro he
  rw [← he, charVal_dChar n h] at hc
  cases hc

theorem natRepr_no_hyphen (n : Nat) (c : Char) (hc : c ∈ natRepr n) : c ≠ '-' := by
  obtain ⟨d, hd, rfl⟩ := natRepr_mem_digit n c hc
  exact dChar_ne d hd '-' (by decide)

theorem natRepr_no_plus (n : Nat) (c : Char) (hc : c ∈ natRepr n) : c ≠ '+' := by
  obtain ⟨d, hd, rfl⟩ := natRepr_mem_digit n c hc
  exact dChar_ne d hd '+' (by decide)

theorem parsePyInt_natRepr (n : Nat) : parsePyInt (natRepr n) = some (n : Int) := by
  have hne := natRepr_ne_nil n
  match hmm : natRepr n with
  | [] => exact absurd hmm hne
  | c :: rest =>
    have hcmem : c ∈ natRepr n := by rw [hmm]; exact List.mem_cons_self c rest
    have h1 : ¬ c = '-' := natRepr_no_hyphen n c hcmem
    have h2 : ¬ c = '+' := natRepr_no_plus n c hcmem
    have := parseDigits_natRepr n
    rw [hmm] at this
    simp [parsePyInt, h1, h2, this]

theorem splitOnChar_no_sep (sep : Char) (l : List Char)
    (h : ∀ c ∈ l, c ≠ sep) : splitOnChar sep l = [l] := by
  induction l with
  | nil => rfl
  | cons c rest ih =>
    have hc : ¬ c = sep := h c (List.mem_cons_self c rest)
    have hr := ih (fun x hx => h x (List.mem_cons_of_mem c hx))
    simp [splitOnChar, hc, hr]

theorem splitOnChar_append_sep (sep : Char) (l1 l2 : List Char)
    (h : ∀ c ∈ l1, c ≠ sep) :
    splitOnChar sep (l1 ++ sep :: l2) = l1 :: splitOnChar sep l2 := by
  induction l1 with
  | nil => simp [splitOnChar]
  | cons c rest ih =>
    have hc : ¬ c = sep := h c (List.mem_cons_self c rest)
    have hr := ih (fun x hx => h x (List.mem_cons_of_mem c hx))
    simp only [List.cons_append, splitOnChar, hc, if_false, List.append_eq, hr]

theorem splitOnChar_ne_nil (sep : Char) (l : List Char) : splitOnChar sep l ≠ [] := by
  induction l with
  | nil => simp [splitOnChar]
  | cons c rest ih =>
    by_cases hc : c = sep
    · simp [splitOnChar, hc]
    · simp only [splitOnChar, hc, if_false]
      match hm : splitOnChar sep rest with
      | [] => simp
      | g :: gs => simp

theorem mapOptList_eq_none {α β : Type} (f : α → Option β) (l : List α) (x : α)
    (hx : x ∈ l) (hfx : f x = none) : mapOptList f l = none := by
  induction l with
  | nil => cases hx
  | cons a rest ih =>
    rcases List.mem_cons.mp hx with rfl | hmem
    · simp [mapOptList, hfx]
    · cases hfa : f a with
      | none => simp [mapOptList, hfa]
      | some b => simp [mapOptList, hfa, ih hmem]

theorem calculate_value_none_of_seg (s : String) (seg : List Char)
    (hseg : seg ∈ splitOnChar '-' s.toList) (hp : parsePyInt seg = none) :
    calculate_value s = none := by
  unfold calculate_value
  rw [mapOptList_eq_none parsePyInt _ seg hseg hp]

/-- Python `str(a)` for a natural number, as a `String`. -/
def natStr (n : Nat) : String := String.mk (natRepr n)

theorem calculate_value_single (a : Nat) : calculate_value (natStr a) = some (a : ℚ) := by
  unfold calculate_value natStr
  have htl : (String.mk (natRepr a)).toList = natRepr a := rfl
  rw [htl, splitOnChar_no_sep '-' (natRepr a) (natRepr_no_hyphen a)]
  rw [show mapOptList parsePyInt [natRepr a] = some [(a : Int)] by
    simp [mapOptList, parsePyInt_natRepr]]
  simp

theorem calculate_value_range (a b : Nat) :
    calculate_value (String.mk (natRepr a ++ '-' :: natRepr b)) = some ((a + b : ℚ) / 2) := by
  unfold calculate_value
  have htl : (String.mk (natRepr a ++ '-' :: natRepr b)).toList =
      natRepr a ++ '-' :: natRepr b := rfl
  rw [htl, splitOnChar_append_sep '-' (natRepr a) (natRepr b) (natRepr_no_hyphen a),
    splitOnChar_no_sep '-' (natRepr b) (natRepr_no_hyphen b)]
  rw [show mapOptList parsePyInt [natRepr a, natRepr b] = some [(a : Int), (b : Int)] by
    simp [mapOptList, parsePyInt_natRepr]]
  simp only [List.sum_cons, List.sum_nil, List.length_cons, List.length_nil]
  push_cast
  ring_nf

/- ### Helper lemmas: the update pass -/

/-- The composite key of a payload region. -/
def compKeyOf (r : RegionIn) : String := compKey r.region_id r.partregion_id

theorem updateRegions_error (refd : Date) (lg : List (String × String)) (lu nu : DateTime)
    (st : ApiState) (r : RegionIn) (rest : List RegionIn) (e : PyErr)
    (h : buildRegion refd lg lu nu r = Except.error e) :
    updateRegions refd lg lu nu st (r :: rest) = (st, false) := by
  simp [updateRegions, h]

theorem updateRegions_ok_pre (refd : Date) (lg : List (String × String)) (lu nu : DateTime)
    (pre : List RegionIn) :
    ∀ (st : ApiState) (rest : List RegionIn),
      (∀ x ∈ pre, ∃ reg, buildRegion refd lg lu nu x = Except.ok reg) →
      updateRegions refd lg lu nu st (pre ++ rest) =
        updateRegions refd lg lu nu
          { st with data := builtStoreFrom refd lg lu nu st.data pre } rest := by
  induction pre with
  | nil =>
    intro st rest _
    simp [builtStoreFrom]
  | cons x pre' ih =>
    intro st rest hok
    obtain ⟨reg, hreg⟩ := hok x (List.mem_cons_self x pre')
    have hrest : ∀ y ∈ pre', ∃ r, buildRegion refd lg lu nu y = Except.ok r :=
      fun y hy => hok y (List.mem_cons_of_mem x hy)
    simp only [List.cons_append, updateRegions, hreg, List.append_eq]
    rw [ih _ rest hrest]
    simp [builtStoreFrom, hreg]

theorem updateRegions_success_keys (refd : Date) (lg : List (String × String))
    (lu nu : DateTime) :
    ∀ (rs : List RegionIn) (st st' : ApiState),
      updateRegions refd lg lu nu st rs = (st', true) →
      ∀ k, (alookup st'.data k).isSome = true ↔
        (k ∈ rs.map compKeyOf ∨ (alookup st.data k).isSome = true) := by
  intro rs
  induction rs with
  | nil =>
    intro st st' h k
    obtain ⟨h1, -⟩ := Prod.mk.injEq .. ▸ h
    subst h1
    simp [updateRegions] at h ⊢
  | cons r rest ih =>
    intro st st' h k
    cases hb : buildRegion refd lg lu nu r with
    | error e =>
      rw [updateRegions_error refd lg lu nu st r rest e hb] at h
      simp at h
    | ok reg =>
      simp only [updateRegions, hb] at h
      have := ih _ _ h k
      rw [this, alookup_dictInsert]
      by_cases hk : k = compKey r.region_id r.partregion_id
      · subst hk
        simp [compKeyOf]
      · simp [hk, compKeyOf, List.mem_cons]

theorem updateFromPayload_eq (st : ApiState) (p : Payload) (refd : Date)
    (lu nu : DateTime) (lg : List (String × String))
    (hlu : strptimeUhr p.last_update = Except.ok lu)
    (hnu : strptimeUhr p.next_update = Except.ok nu)
    (hlg : build_legend p.legend = Except.ok lg) :
    updateFromPayload st p refd =
      updateRegions refd lg lu nu
        { st with last_update := some lu, next_update := some nu,
                  legend := some lg, data := [] } p.content := by
  simp only [updateFromPayload, hlu, hnu, hlg]

theorem updateFromPayloadAsync_eq (st : ApiState) (p : Payload) (refd : Date)
    (lu nu : DateTime) (lg : List (String × String))
    (hlu : strptimeUhr p.last_update = Except.ok lu)
    (hnu : strptimeUhr p.next_update = Except.ok nu)
    (hlg : build_legend p.legend = Except.ok lg) :
    updateFromPayloadAsync st p refd =
      updateRegions refd lg lu nu
        { st with last_update := some lu, next_update := some nu,
                  legend := some lg } p.content := by
  simp only [updateFromPayloadAsync, hlu, hnu, hlg]

theorem updateFromPayload_ok (st : ApiState) (p : Payload) (refd : Date) (st' : ApiState)
    (h : updateFromPayload st p refd = (st', true)) :
    ∃ lu nu lg,
      strptimeUhr p.last_update = Except.ok lu ∧
      strptimeUhr p.next_update = Except.ok nu ∧
      build_legend p.legend = Except.ok lg ∧
      updateRegions refd lg lu nu
        { st with last_update := some lu, next_update := some nu,
                  legend := some lg, data := [] } p.content = (st', true) := by
  cases hlu : strptimeUhr p.last_update with
  | error e => simp only [updateFromPayload, hlu] at h; simp at h
  | ok lu =>
    cases hnu : strptimeUhr p.next_update with
    | error e => simp only [updateFromPayload, hlu, hnu] at h; simp at h
    | ok nu =>
      cases hlg : build_legend p.legend with
      | error e => simp only [updateFromPayload, hlu, hnu, hlg] at h; simp at h
      | ok lg =>
        rw [updateFromPayload_eq st p refd lu nu lg hlu hnu hlg] at h
        exact ⟨lu, nu, lg, rfl, rfl, rfl, h⟩

theorem updateFromPayloadAsync_ok (st : ApiState) (p : Payload) (refd : Date) (st' : ApiState)
    (h : updateFromPayloadAsync st p refd = (st', true)) :
    ∃ lu nu lg,
      strptimeUhr p.last_update = Except.ok lu ∧
      strptimeUhr p.next_update = Except.ok nu ∧
      build_legend p.legend = Except.ok lg ∧
      updateRegions refd lg lu nu
        { st with last_update := some lu, next_update := some nu,
                  legend := some lg } p.content = (st', true) := by
  cases hlu : strptimeUhr p.last_update with
  | error e => simp only [updateFromPayloadAsync, hlu] at h; simp at h
  | ok lu =>
    cases hnu : strptimeUhr p.next_update with
    | error e => simp only [updateFromPayloadAsync, hlu, hnu] at h; simp at h
    | ok nu =>
      cases hlg : build_legend p.legend with
      | error e => simp only [updateFromPayloadAsync, hlu, hnu, hlg] at h; simp at h
      | ok lg =>
        rw [updateFromPayloadAsync_eq st p refd lu nu lg hlu hnu hlg] at h
        exact ⟨lu, nu, lg, rfl, rfl, rfl, h⟩

/- ### Helper lemmas: datetime round trip and the retry loop -/

theorem toList_mk (l : List Char) : (String.mk l).toList = l := rfl

theorem mk_cons_ne_empty (c : Char) (l : List Char) : String.mk (c :: l) ≠ "" := by
  intro h
  have h2 := congrArg String.data h
  simp at h2

theorem isoformat_ne_empty (d : DateTime) : isoformat d ≠ "" := by
  unfold isoformat pad4
  exact mk_cons_ne_empty _ _

theorem toNat_cast (n : Nat) : ((n : Int)).toNat = n := by simp

theorem pad2_parse (n : Nat) (h : n ≤ 99) :
    parse2 (dChar (n / 10 % 10)) (dChar (n % 10)) = some n := by
  have h1 : n / 10 % 10 ≤ 9 := by omega
  have h2 : n % 10 ≤ 9 := by omega
  simp only [parse2, charVal_dChar _ h1, charVal_dChar _ h2]
  congr 1
  omega

theorem pad4_parse (n : Nat) (h : n ≤ 9999) :
    parse4 (dChar (n / 1000 % 10)) (dChar (n / 100 % 10)) (dChar (n / 10 % 10))
      (dChar (n % 10)) = some n := by
  have h1 : n / 1000 % 10 ≤ 9 := by omega
  have h2 : n / 100 % 10 ≤ 9 := by omega
  have h3 : n / 10 % 10 ≤ 9 := by omega
  have h4 : n % 10 ≤ 9 := by omega
  simp only [parse4, charVal_dChar _ h1, charVal_dChar _ h2, charVal_dChar _ h3,
    charVal_dChar _ h4]
  congr 1
  omega

/-- The timestamp ranges every parsed datetime satisfies (`strptime` and
`fromisoformat` both enforce them, so every timestamp a client ever holds is
well formed). -/
def DateTime.WF (d : DateTime) : Prop :=
  d.year ≤ 9999 ∧ 1 ≤ d.month ∧ d.month ≤ 12 ∧ 1 ≤ d.day ∧ d.day ≤ 31 ∧
    d.hour ≤ 23 ∧ d.minute ≤ 59 ∧ d.second ≤ 59

theorem fromisoformatOpt_isoformat (d : DateTime) (h : d.WF) :
    fromisoformatOpt (isoformat d) = some d := by
  obtain ⟨hy, hmo1, hmo2, hd1, hd2, hh, hmi, hs⟩ := h
  unfold fromisoformatOpt isoformat
  simp only [toList_mk, pad4, pad2, List.cons_append, List.nil_append, toNat_cast]
  simp only [pad4_parse d.year hy, pad2_parse d.month (by omega), pad2_parse d.day (by omega),
    pad2_parse d.hour (by omega), pad2_parse d.minute (by omega),
    pad2_parse d.second (by omega)]
  rw [if_pos (by decide)]
  rw [if_pos ⟨hmo1, hmo2, hd1, hd2, hh, hmi, hs⟩]

theorem get_dataGo_all_fail (responses : Nat → Option Payload) (rd : Nat)
    (hfail : ∀ i, responses i = none) (gg : Nat) :
    ∀ (attempt : Nat) (sleeps : List Nat),
      get_dataGo responses rd (gg + 1) attempt sleeps =
        (Except.error PyErr.dwdError, attempt + (gg + 1), sleeps ++ List.replicate gg rd) := by
  induction gg with
  | zero => intro attempt sleeps; simp [get_dataGo, hfail attempt]
  | succ g2 ih =>
    intro attempt sleeps
    rw [get_dataGo, hfail attempt]
    show get_dataGo responses rd (g2 + 1) (attempt + 1) (sleeps ++ [rd]) = _
    rw [ih (attempt + 1) (sleeps ++ [rd])]
    refine congrArg (fun x => (Except.error PyErr.dwdError, x)) ?_
    refine congrArg₂ Prod.mk (by omega) ?_
    rw [List.append_assoc]
    congr 1

theorem get_data_all_fail (responses : Nat → Option Payload) (rc rd : Nat)
    (hfail : ∀ i, responses i = none) :
    get_data responses rc rd =
      (Except.error PyErr.dwdError, rc, List.replicate (rc - 1) rd) := by
  unfold get_data
  cases rc with
  | zero => simp [get_dataGo]
  | succ n =>
    rw [get_dataGo_all_fail responses rd hfail n 0 []]
    simp

theorem calculate_value_eval (s : String) (vals : List Int)
    (hm : mapOptList parsePyInt (splitOnChar '-' s.toList) = some vals) :
    calculate_value s =
      some ((vals.sum : ℚ) / (((splitOnChar '-' s.toList).length : Nat) : ℚ)) := by
  unfold calculate_value
  simp only [hm]

theorem build_legendGo_eq_filter (legend : List (String × String)) :
    ∀ (items : List (String × String)) (acc : List (String × String)),
      build_legendGo legend items acc =
        (items.filter (fun kv => ! hasDescMark kv.1)).foldlM
          (fun acc kv =>
            match alookup legend (kv.1 ++ "_desc") with
            | none => Except.error (PyErr.keyError (kv.1 ++ "_desc"))
            | some d => Except.ok (dictInsert acc kv.2 d))
          acc := by
  intro items
  induction items with
  | nil => intro acc; rfl
  | cons kv rest ih =>
    intro acc
    obtain ⟨k, v⟩ := kv
    by_cases hd : hasDescMark k
    · simp only [build_legendGo, hd, if_true, List.filter_cons, Bool.not_eq_true']
      rw [ih acc]
      simp [hd]
    · simp only [build_legendGo, hd, if_false, List.filter_cons]
      cases halk : alookup legend (k ++ "_desc") with
      | none =>
        simp only [hd, halk, Bool.not_false, if_pos, List.foldlM_cons]
        rfl
      | some dsc =>
        simp only [hd, halk, Bool.not_false, if_pos, List.foldlM_cons]
        rw [ih (dictInsert acc v dsc)]
        rfl

/- ## The claims -/

/- ### C7: weekday rule on concrete dates -/

/-- Legend fixture for C7: maps each raw code the bucket uses to a description. -/
def lgC7 : List (String × String) := [("3", "hoch"), ("2", "mittel"), ("1", "gering")]

/-- C7: with reference date Friday 2025-06-06 and bucket
`{today: "3", tomorrow: "2", dayafter_to: "1"}`, `build_pollen` produces exactly
the three dated entries 2025-06-06 ↦ 3.0, 2025-06-07 ↦ 2.0, 2025-06-08 ↦ 1.0;
with reference date Sunday 2025-06-08 it produces exactly one entry
2025-06-10 ↦ 1.0; with Sunday and `dayafter_to = "-1"` it produces the empty
forecast.  (The legend is instantiated with `lgC7`; the claim does not
constrain the human-readable texts.) -/
theorem C7_weekday_rule_concrete :
    build_pollen ⟨2025, 6, 6⟩ lgC7 ⟨"3", "2", "1"⟩ =
      Except.ok [("2025-06-06", ⟨3, "3", "hoch", "#FF0000"⟩),
                 ("2025-06-07", ⟨2, "2", "mittel", "#FFFF00"⟩),
                 ("2025-06-08", ⟨1, "1", "gering", "#ADFF2F"⟩)] ∧
    build_pollen ⟨2025, 6, 8⟩ lgC7 ⟨"3", "2", "1"⟩ =
      Except.ok [("2025-06-10", ⟨1, "1", "gering", "#ADFF2F"⟩)] ∧
    build_pollen ⟨2025, 6, 8⟩ lgC7 ⟨"3", "2", "-1"⟩ = Except.ok [] := by
  have hcv3 : calculate_value "3" = some (3 : ℚ) := by
    rw [calculate_value_eval "3" [(3 : Int)] rfl,
      show ((splitOnChar '-' ("3".toList)).length : Nat) = 1 from rfl]
    norm_num
  have hcv2 : calculate_value "2" = some (2 : ℚ) := by
    rw [calculate_value_eval "2" [(2 : Int)] rfl,
      show ((splitOnChar '-' ("2".toList)).length : Nat) = 1 from rfl]
    norm_num
  have hcv1 : calculate_value "1" = some (1 : ℚ) := by
    rw [calculate_value_eval "1" [(1 : Int)] rfl,
      show ((splitOnChar '-' ("1".toList)).length : Nat) = 1 from rfl]
    norm_num
  have hbv3 : build_values lgC7 "3" = Except.ok ⟨3, "3", "hoch", "#FF0000"⟩ := by
    simp only [build_values, hcv3, show alookup lgC7 "3" = some "hoch" from rfl]
    norm_num [get_color_for_value]
  have hbv2 : build_values lgC7 "2" = Except.ok ⟨2, "2", "mittel", "#FFFF00"⟩ := by
    simp only [build_values, hcv2, show alookup lgC7 "2" = some "mittel" from rfl]
    norm_num [get_color_for_value]
  have hbv1 : build_values lgC7 "1" = Except.ok ⟨1, "1", "gering", "#ADFF2F"⟩ := by
    simp only [build_values, hcv1, show alookup lgC7 "1" = some "gering" from rfl]
    norm_num [get_color_for_value]
  refine ⟨?_, ?_, ?_⟩
  · simp only [build_pollen, show pyWeekday ⟨2025, 6, 6⟩ = 4 from rfl]
    norm_num
    simp only [hbv3, hbv2, hbv1]
    rfl
  · simp only [build_pollen, show pyWeekday ⟨2025, 6, 8⟩ = 6 from rfl]
    norm_num
    simp only [hbv1]
    rfl
  · simp only [build_pollen, show pyWeekday ⟨2025, 6, 8⟩ = 6 from rfl]
    norm_num

/- ### C8: value decoding and the color step function -/

/-- C8 counterexample: the claim quantifies over ALL integers a, so it asserts
`value("-1") = -1`; but `'-1'.split('-')` yields an empty first segment and
`int('')` raises `ValueError`, so `calculate_value "-1"` fails instead of
returning `-1`. -/
theorem C8_counterexample :
    calculate_value "-1" = none ∧ calculate_value "-1" ≠ some (-1 : ℚ) := by
  refine ⟨by rfl, ?_⟩
  rw [show calculate_value "-1" = none from rfl]
  intro h
  cases h

/-- C8 amended: for all NONNEGATIVE integers a and b, the computed value is a
for the code `"a"` and (a+b)/2 for `"a-b"`; the color of a value is the
inclusive-low step function green/yellowgreen/yellow/orange/red with
thresholds 0.0, 1.0, 2.0, 2.5, and concretely 0.0 → green, 1.0 → yellowgreen,
2.0 → yellow, 2.5 → orange, 2.6 → red. -/
theorem C8_amended :
    (∀ a : Nat, calculate_value (natStr a) = some (a : ℚ)) ∧
    (∀ a b : Nat,
      calculate_value (String.mk (natRepr a ++ '-' :: natRepr b)) =
        some ((a + b : ℚ) / 2)) ∧
    (∀ v : ℚ,
      (v ≤ 0 → get_color_for_value v = "#00FF00") ∧
      (0 < v → v ≤ 1 → get_color_for_value v = "#ADFF2F") ∧
      (1 < v → v ≤ 2 → get_color_for_value v = "#FFFF00") ∧
      (2 < v → v ≤ 5/2 → get_color_for_value v = "#FFA500") ∧
      (5/2 < v → get_color_for_value v = "#FF0000")) ∧
    (get_color_for_value 0 = "#00FF00" ∧ get_color_for_value 1 = "#ADFF2F" ∧
     get_color_for_value 2 = "#FFFF00" ∧ get_color_for_value (5/2) = "#FFA500" ∧
     get_color_for_value (13/5) = "#FF0000") := by
  refine ⟨calculate_value_single, calculate_value_range, ?_, ?_⟩
  · intro v
    refine ⟨?_, ?_, ?_, ?_, ?_⟩ <;>
      intros <;> unfold get_color_for_value <;> split_ifs <;> first | rfl | linarith
  · refine ⟨?_, ?_, ?_, ?_, ?_⟩ <;> norm_num [get_color_for_value]

/-- C8 witness: the amended theorem applied at concrete inputs. -/
theorem C8_amended_witness :
    get_color_for_value (9/4) = "#FFA500" ∧ calculate_value (natStr 7) = some 7 :=
  ⟨(C8_amended.2.2.1 (9/4)).2.2.2.1 (by norm_num) (by norm_num), C8_amended.1 7⟩

/- ### C9: the Legend decoder -/

/-- C9 counterexample: the key `"a_descx"` does not have the shape `*_desc`,
so per the claim it should remain and force a lookup of the missing sibling
`"a_descx_desc"` (a missing-key failure); but the source tests `'_desc' in key`
by SUBSTRING, drops `"a_descx"`, and returns an empty legend successfully. -/
theorem C9_counterexample :
    build_legend [("a_descx", "0")] = Except.ok [] ∧
    ∀ e : PyErr, (Except.ok ([] : List (String × String))) ≠ Except.error e := by
  refine ⟨by rfl, ?_⟩
  intro e h
  cases h

/-- C9 amended: `build_legend` drops every key CONTAINING `'_desc'` as a
substring (not only the `*_desc` keys) and, for each remaining key K, emits
`value_at[K] ↦ value_at[K ++ "_desc"]`, propagating a missing-key failure when
the sibling is absent — stated as equality with the spec-side decoder
`build_legend_spec`; concretely the spec's example input yields
`{"0": "none", "1": "low"}`. -/
theorem C9_amended :
    (∀ legend, build_legend legend = build_legend_spec legend) ∧
    build_legend [("id1", "0"), ("id1_desc", "none"), ("id2", "1"), ("id2_desc", "low")] =
      Except.ok [("0", "none"), ("1", "low")] := by
  refine ⟨?_, by rfl⟩
  intro legend
  unfold build_legend build_legend_spec
  exact build_legendGo_eq_filter legend legend []

/- ### C10: the "-1" sentinel is only honored in the dayafter_to slot -/

theorem build_values_valueError (lg : List (String × String)) (s : String)
    (h : calculate_value s = none) : build_values lg s = Except.error PyErr.valueError := by
  simp [build_values, h]

theorem build_pollen_today_fail (refd : Date) (lg : List (String × String)) (bk : Bucket)
    (h : calculate_value bk.today = none) (hw : pyWeekday refd ≤ 4) :
    build_pollen refd lg bk = Except.error PyErr.valueError := by
  have hbv := build_values_valueError lg bk.today h
  rcases lt_or_eq_of_le hw with h4 | h4
  · simp [build_pollen, if_pos h4, hbv]
  · simp [build_pollen, h4, hbv]

theorem build_pollen_tomorrow_fail_sat (refd : Date) (lg : List (String × String))
    (bk : Bucket) (h : calculate_value bk.tomorrow = none) (hw : pyWeekday refd = 5) :
    build_pollen refd lg bk = Except.error PyErr.valueError := by
  have hbv := build_values_valueError lg bk.tomorrow h
  simp [build_pollen, hw, hbv]

theorem build_pollen_tomorrow_fail_weekday (refd : Date) (lg : List (String × String))
    (bk : Bucket) (e1 : Entry) (h1 : build_values lg bk.today = Except.ok e1)
    (h : calculate_value bk.tomorrow = none) (hw : pyWeekday refd ≤ 4) :
    build_pollen refd lg bk = Except.error PyErr.valueError := by
  have hbv := build_values_valueError lg bk.tomorrow h
  rcases lt_or_eq_of_le hw with h4 | h4
  · simp [build_pollen, if_pos h4, h1, hbv]
  · simp [build_pollen, h4, h1, hbv]

/-- C10: the sentinel "-1" is only honored in the `dayafter_to` slot.  A
`today` code with a non-integer hyphen segment (for example "-1", which splits
into the unparsable empty segment) makes `build_pollen` raise the integer-parse
failure on Monday–Friday (the weekdays using that slot); a `tomorrow` code of
that shape does so on Saturday, and on Monday–Friday once the `today` slot
decodes; and such a payload makes the blocking update pass fail as a whole
instead of skipping the bucket.  (Each statement assumes the slots the source
evaluates earlier succeed, since Python propagates the first raise.) -/
theorem C10_sentinel_only_dayafter :
    (∀ (refd : Date) (lg : List (String × String)) (bk : Bucket),
      (∃ seg ∈ splitOnChar '-' bk.today.toList, parsePyInt seg = none) →
      pyWeekday refd ≤ 4 →
      build_pollen refd lg bk = Except.error PyErr.valueError) ∧
    (∀ (refd : Date) (lg : List (String × String)) (bk : Bucket),
      (∃ seg ∈ splitOnChar '-' bk.tomorrow.toList, parsePyInt seg = none) →
      pyWeekday refd = 5 →
      build_pollen refd lg bk = Except.error PyErr.valueError) ∧
    (∀ (refd : Date) (lg : List (String × String)) (bk : Bucket) (e1 : Entry),
      build_values lg bk.today = Except.ok e1 →
      (∃ seg ∈ splitOnChar '-' bk.tomorrow.toList, parsePyInt seg = none) →
      pyWeekday refd ≤ 4 →
      build_pollen refd lg bk = Except.error PyErr.valueError) ∧
    (∀ (st : ApiState) (p : Payload) (refd : Date) (lu nu : DateTime)
       (lg : List (String × String)) (r : RegionIn) (rest : List RegionIn)
       (a : String) (abk : Bucket) (prest : List (String × Bucket)),
      strptimeUhr p.last_update = Except.ok lu →
      strptimeUhr p.next_update = Except.ok nu →
      build_legend p.legend = Except.ok lg →
      p.content = r :: rest →
      r.pollen = (a, abk) :: prest →
      (∃ seg ∈ splitOnChar '-' abk.today.toList, parsePyInt seg = none) →
      pyWeekday refd ≤ 4 →
      (updateFromPayload st p refd).2 = false) := by
  refine ⟨?_, ?_, ?_, ?_⟩
  · intro refd lg bk hseg hw
    obtain ⟨seg, hmem, hp⟩ := hseg
    exact build_pollen_today_fail refd lg bk
      (calculate_value_none_of_seg bk.today seg hmem hp) hw
  · intro refd lg bk hseg hw
    obtain ⟨seg, hmem, hp⟩ := hseg
    exact build_pollen_tomorrow_fail_sat refd lg bk
      (calculate_value_none_of_seg bk.tomorrow seg hmem hp) hw
  · intro refd lg bk e1 h1 hseg hw
    obtain ⟨seg, hmem, hp⟩ := hseg
    exact build_pollen_tomorrow_fail_weekday refd lg bk e1 h1
      (calculate_value_none_of_seg bk.tomorrow seg hmem hp) hw
  · intro st p refd lu nu lg r rest a abk prest hlu hnu hlg hcontent hpollen hseg hw
    obtain ⟨seg, hmem, hp⟩ := hseg
    have hbp : build_pollen refd lg abk = Except.error PyErr.valueError :=
      build_pollen_today_fail refd lg abk
        (calculate_value_none_of_seg abk.today seg hmem hp) hw
    have hmap : buildPollenMapGo refd lg r.pollen [] = Except.error PyErr.valueError := by
      rw [hpollen]
      show (match build_pollen refd lg abk with
            | Except.error e => Except.error e
            | Except.ok np => buildPollenMapGo refd lg prest (dictInsert [] a np)) =
        Except.error PyErr.valueError
      rw [hbp]
    have hreg : buildRegion refd lg lu nu r = Except.error PyErr.valueError := by
      simp only [buildRegion, hmap]
    rw [updateFromPayload_eq st p refd lu nu lg hlu hnu hlg, hcontent,
      updateRegions_error refd lg lu nu _ r rest PyErr.valueError hreg]

/-- C10 witness: the theorem applied at the concrete bucket `{today: "-1"}`
on Monday 2025-06-02, and at a concrete one-region payload on the same day. -/
theorem C10_witness :
    build_pollen ⟨2025, 6, 2⟩ [] ⟨"-1", "0", "0"⟩ = Except.error PyErr.valueError ∧
    (updateFromPayload
        ⟨[], none, none, none, 3600⟩
        ⟨"2025-05-31 11:00 Uhr", "2025-06-01 11:00 Uhr", [("id1", "0"), ("id1_desc", "x")],
          [⟨50, "B", -1, "", [("Birke", ⟨"-1", "0", "0"⟩)]⟩]⟩
        ⟨2025, 6, 2⟩).2 = false :=
  ⟨C10_sentinel_only_dayafter.1 ⟨2025, 6, 2⟩ [] ⟨"-1", "0", "0"⟩
      ⟨[], by decide, by rfl⟩ (by decide),
   C10_sentinel_only_dayafter.2.2.2
      ⟨[], none, none, none, 3600⟩ _ ⟨2025, 6, 2⟩
      ⟨2025, 5, 31, 11, 0, 0⟩ ⟨2025, 6, 1, 11, 0, 0⟩ [("0", "x")]
      ⟨50, "B", -1, "", [("Birke", ⟨"-1", "0", "0"⟩)]⟩ [] "Birke" ⟨"-1", "0", "0"⟩ []
      (by rfl) (by rfl) (by rfl) (by rfl) (by rfl)
      ⟨[], by decide, by rfl⟩ (by decide)⟩

/- ### C1: the blocking update is NOT all-or-nothing -/

/-- Store resident for the C1 scenario (a previously held region, no ℚ values). -/
def regC1 : Region :=
  { region_id := 9, region_name := "R", partregion_id := 9, partregion_name := "P",
    last_update := DTVal.str "x", next_update := DTVal.str "y", pollen := [] }

/-- Client state before the failing update of C1: the Store holds one region. -/
def stC1 : ApiState :=
  { data := [("9-9", regC1)], legend := some [("0", "none")],
    last_update := none, next_update := none, cache_duration := 3600 }

/-- The payload region whose build fails in C1: the raw code "5" is not in the
fetched legend, so `build_values` raises `KeyError('5')`. -/
def rgnC1 : RegionIn := ⟨50, "B", -1, "", [("Birke", ⟨"5", "0", "0"⟩)]⟩

/-- The C1 payload: timestamps and legend decode fine, the single region fails. -/
def pC1 : Payload :=
  { last_update := "2025-05-31 11:00 Uhr", next_update := "2025-06-01 11:00 Uhr",
    legend := [("id1", "0"), ("id1_desc", "none")], content := [rgnC1] }

/-- C1 counterexample: on Monday 2025-06-02 the single region of `pC1` fails to
build, the update pass reports failure — and the previously held Store is NOT
unchanged: `self.data = {}` ran before the region loop, so the Store was
emptied.  This refutes the claim that a failed update leaves the previous Store
untouched. -/
theorem C1_counterexample :
    buildRegion ⟨2025, 6, 2⟩ [("0", "none")] ⟨2025, 5, 31, 11, 0, 0⟩
        ⟨2025, 6, 1, 11, 0, 0⟩ rgnC1 = Except.error (PyErr.keyError "5") ∧
    (updateFromPayload stC1 pC1 ⟨2025, 6, 2⟩).2 = false ∧
    (updateFromPayload stC1 pC1 ⟨2025, 6, 2⟩).1.data = [] ∧
    stC1.data ≠ [] := by
  refine ⟨by rfl, by rfl, by rfl, ?_⟩
  intro h
  cases h

/-- C1 amended: when a single region fails to build during the blocking update
pass, the update reports failure, but the Store afterward is the partial
rebuild — exactly the regions fully built before the failing one — because the
pass empties `self.data` first; the previous Store is discarded, not preserved. -/
theorem C1_amended (st : ApiState) (p : Payload) (refd : Date) (lu nu : DateTime)
    (lg : List (String × String)) (pre : List RegionIn) (r : RegionIn)
    (post : List RegionIn) (e : PyErr)
    (hlu : strptimeUhr p.last_update = Except.ok lu)
    (hnu : strptimeUhr p.next_update = Except.ok nu)
    (hlg : build_legend p.legend = Except.ok lg)
    (hcontent : p.content = pre ++ r :: post)
    (hpre : ∀ x ∈ pre, ∃ reg, buildRegion refd lg lu nu x = Except.ok reg)
    (hr : buildRegion refd lg lu nu r = Except.error e) :
    updateFromPayload st p refd =
      ({ st with last_update := some lu, next_update := some nu, legend := some lg,
                 data := builtStoreFrom refd lg lu nu [] pre }, false) := by
  rw [updateFromPayload_eq st p refd lu nu lg hlu hnu hlg, hcontent,
    updateRegions_ok_pre refd lg lu nu pre _ (r :: post) hpre,
    updateRegions_error refd lg lu nu _ r post e hr]

/-- C1 witness: the amended theorem applied to the concrete C1 scenario. -/
theorem C1_amended_witness :
    updateFromPayload stC1 pC1 ⟨2025, 6, 2⟩ =
      ({ stC1 with last_update := some ⟨2025, 5, 31, 11, 0, 0⟩,
                   next_update := some ⟨2025, 6, 1, 11, 0, 0⟩,
                   legend := some [("0", "none")],
                   data := builtStoreFrom ⟨2025, 6, 2⟩ [("0", "none")]
                     ⟨2025, 5, 31, 11, 0, 0⟩ ⟨2025, 6, 1, 11, 0, 0⟩ [] [] }, false) :=
  C1_amended stC1 pC1 ⟨2025, 6, 2⟩ ⟨2025, 5, 31, 11, 0, 0⟩ ⟨2025, 6, 1, 11, 0, 0⟩
    [("0", "none")] [] rgnC1 [] (PyErr.keyError "5")
    (by rfl) (by rfl) (by rfl) (by rfl)
    (by intro x hx; cases hx) (by rfl)

/- ### C2: only the blocking update fully replaces the Store -/

/-- Store resident for the C2 scenario. -/
def regC2 : Region :=
  { region_id := 9, region_name := "R", partregion_id := 9, partregion_name := "P",
    last_update := DTVal.str "x", next_update := DTVal.str "y", pollen := [] }

/-- Async client state before the C2 update: the Store already holds "9-9". -/
def stC2 : ApiState :=
  { data := [("9-9", regC2)], legend := some [("0", "none")],
    last_update := none, next_update := none, cache_duration := 3600 }

/-- A like-`stC2` state with an empty Store, for the sync half of the witness. -/
def stC2e : ApiState :=
  { data := [], legend := none, last_update := none, next_update := none,
    cache_duration := 3600 }

/-- The C2 payload: a single region (region 50, partregion -1) with no
allergens; the key "9-9" is absent from it. -/
def pC2 : Payload :=
  { last_update := "2025-05-31 11:00 Uhr", next_update := "2025-06-01 11:00 Uhr",
    legend := [("id1", "0"), ("id1_desc", "none")], content := [⟨50, "B", -1, "", []⟩] }

/-- C2 counterexample: the asynchronous update succeeds on `pC2`, whose content
holds only the key "50--1" — yet the stale key "9-9" from the previous Store is
still present afterwards, because `AsyncDwdPollenApi.update` never resets
`self.data`.  This refutes "identical semantics / full replacement" for the
async variant. -/
theorem C2_counterexample :
    (updateFromPayloadAsync stC2 pC2 ⟨2025, 6, 2⟩).2 = true ∧
    pC2.content.map compKeyOf = ["50--1"] ∧
    ("9-9" ∉ pC2.content.map compKeyOf) ∧
    alookup (updateFromPayloadAsync stC2 pC2 ⟨2025, 6, 2⟩).1.data "9-9" = some regC2 := by
  refine ⟨by rfl, by rfl, by decide, by decide⟩

/-- C2 amended: a successful BLOCKING update leaves the Store holding exactly
the composite keys of the payload's content list (full replacement), while a
successful ASYNC update leaves it holding the union of the payload's keys and
the previously held keys (an incremental merge, not a replacement). -/
theorem C2_amended :
    (∀ (st : ApiState) (p : Payload) (refd : Date) (st' : ApiState),
      updateFromPayload st p refd = (st', true) →
      ∀ k, (alookup st'.data k).isSome = true ↔ k ∈ p.content.map compKeyOf) ∧
    (∀ (st : ApiState) (p : Payload) (refd : Date) (st' : ApiState),
      updateFromPayloadAsync st p refd = (st', true) →
      ∀ k, (alookup st'.data k).isSome = true ↔
        (k ∈ p.content.map compKeyOf ∨ (alookup st.data k).isSome = true)) := by
  constructor
  · intro st p refd st' h k
    obtain ⟨lu, nu, lg, hlu, hnu, hlg, hrun⟩ := updateFromPayload_ok st p refd st' h
    rw [updateRegions_success_keys refd lg lu nu p.content _ _ hrun k]
    simp [alookup]
  · intro st p refd st' h k
    obtain ⟨lu, nu, lg, hlu, hnu, hlg, hrun⟩ := updateFromPayloadAsync_ok st p refd st' h
    rw [updateRegions_success_keys refd lg lu nu p.content _ _ hrun k]

/-- C2 witness: the amended theorem applied to the concrete C2 payloads — the
sync update makes "50--1" present, the async update keeps "9-9" present. -/
theorem C2_amended_witness :
    (alookup (updateFromPayload stC2e pC2 ⟨2025, 6, 2⟩).1.data "50--1").isSome = true ∧
    (alookup (updateFromPayloadAsync stC2 pC2 ⟨2025, 6, 2⟩).1.data "9-9").isSome = true :=
  ⟨(C2_amended.1 stC2e pC2 ⟨2025, 6, 2⟩ _ (by rfl) "50--1").mpr (by decide),
   (C2_amended.2 stC2 pC2 ⟨2025, 6, 2⟩ _ (by rfl) "9-9").mpr (Or.inr (by decide))⟩

/- ### C3: cache load is neither atomic nor always non-fatal -/

/-- Store resident for the C3 scenario. -/
def regC3 : Region :=
  { region_id := 9, region_name := "R", partregion_id := 9, partregion_name := "P",
    last_update := DTVal.str "x", next_update := DTVal.str "y", pollen := [] }

/-- Client state before the C3 load: a nonempty Store and legend. -/
def stC3 : ApiState :=
  { data := [("9-9", regC3)], legend := some [("0", "none")],
    last_update := none, next_update := none, cache_duration := 3600 }

/-- A fresh, decodable snapshot whose `data` is empty. -/
def cEmptyC3 : CacheContent :=
  { data := [], legend := some [], last_update := none, next_update := none }

/-- A fresh, decodable snapshot with a timestamp `fromisoformat` rejects. -/
def cBadC3 : CacheContent :=
  { data := [("9-9", regC3)], legend := some [], last_update := some "garbage",
    next_update := none }

/-- C3 counterexample: a fresh decodable snapshot with empty `data` makes
`load_from_cache` report "not usable" — yet the client's Store and Legend were
already overwritten (the Store was emptied), refuting "whenever load() reports
not usable the state is exactly as before"; and a decodable snapshot with a
malformed timestamp raises an uncaught `ValueError` instead of reporting "not
usable", refuting "without raising an error ... malformed". -/
theorem C3_counterexample :
    (load_from_cache stC3 (CacheState.file 0 (CacheRaw.decoded cEmptyC3)) 0).2 =
      LoadOutcome.notUsable ∧
    (load_from_cache stC3 (CacheState.file 0 (CacheRaw.decoded cEmptyC3)) 0).1.data = [] ∧
    stC3.data ≠ [] ∧
    (load_from_cache stC3 (CacheState.file 0 (CacheRaw.decoded cBadC3)) 0).2 =
      LoadOutcome.exn PyErr.valueError := by
  refine ⟨by rfl, by rfl, ?_, by rfl⟩
  intro h
  cases h

/-- C3 amended: `load_from_cache` reports "not usable" without raising and
without touching the state when the snapshot is missing, stale, unreadable, or
not JSON-decodable; but a fresh DECODABLE snapshot always overwrites the
Store/Legend (and any parseable timestamps) before usability is decided —
"usable" simply means the loaded `data` is nonempty — and a nonempty,
non-ISO timestamp string in the snapshot raises an uncaught `ValueError`. -/
theorem C3_amended :
    (∀ (st : ApiState) (now : Int),
      load_from_cache st CacheState.missing now = (st, LoadOutcome.notUsable)) ∧
    (∀ (st : ApiState) (now mtime : Int) (raw : CacheRaw),
      st.cache_duration < now - mtime →
      load_from_cache st (CacheState.file mtime raw) now = (st, LoadOutcome.notUsable)) ∧
    (∀ (st : ApiState) (now mtime : Int),
      ¬ st.cache_duration < now - mtime →
      load_from_cache st (CacheState.file mtime CacheRaw.unreadable) now =
        (st, LoadOutcome.notUsable)) ∧
    (∀ (st : ApiState) (now mtime : Int),
      ¬ st.cache_duration < now - mtime →
      load_from_cache st (CacheState.file mtime CacheRaw.malformed) now =
        (st, LoadOutcome.notUsable)) ∧
    (∀ (st : ApiState) (now mtime : Int) (c : CacheContent),
      ¬ st.cache_duration < now - mtime →
      c.last_update = none → c.next_update = none →
      load_from_cache st (CacheState.file mtime (CacheRaw.decoded c)) now =
        ({ st with data := c.data, legend := c.legend },
         if c.data = [] then LoadOutcome.notUsable else LoadOutcome.usable)) ∧
    (∀ (st : ApiState) (now mtime : Int) (c : CacheContent) (s : String),
      ¬ st.cache_duration < now - mtime →
      c.last_update = some s → s ≠ "" → fromisoformatOpt s = none →
      load_from_cache st (CacheState.file mtime (CacheRaw.decoded c)) now =
        ({ st with data := c.data, legend := c.legend }, LoadOutcome.exn PyErr.valueError)) ∧
    (∀ (st : ApiState) (now mtime : Int) (c : CacheContent) (s1 s2 : String)
       (d1 d2 : DateTime),
      ¬ st.cache_duration < now - mtime →
      c.last_update = some s1 → s1 ≠ "" → fromisoformatOpt s1 = some d1 →
      c.next_update = some s2 → s2 ≠ "" → fromisoformatOpt s2 = some d2 →
      load_from_cache st (CacheState.file mtime (CacheRaw.decoded c)) now =
        ({ st with data := c.data, legend := c.legend,
                   last_update := some d1, next_update := some d2 },
         if c.data = [] then LoadOutcome.notUsable else LoadOutcome.usable)) := by
  refine ⟨?_, ?_, ?_, ?_, ?_, ?_, ?_⟩
  · intro st now
    rfl
  · intro st now mtime raw h
    simp only [load_from_cache]
    rw [if_pos h]
  · intro st now mtime h
    simp only [load_from_cache]
    rw [if_neg h]
  · intro st now mtime h
    simp only [load_from_cache]
    rw [if_neg h]
  · intro st now mtime c h hlu hnu
    simp only [load_from_cache]
    rw [if_neg h]
    simp only [hlu, hnu]
    by_cases hd : c.data = [] <;> simp [hd]
  · intro st now mtime c s h hlu hs hparse
    simp only [load_from_cache]
    rw [if_neg h]
    simp only [hlu, hparse]
    rw [if_neg hs]
  · intro st now mtime c s1 s2 d1 d2 h hlu hs1 hp1 hnu hs2 hp2
    simp only [load_from_cache]
    rw [if_neg h]
    simp only [hlu, hp1, hnu, hp2, hs1, hs2]
    by_cases hd : c.data = [] <;> simp [hd, hs1, hs2]

/-- C3 witness: the amended theorem applied to the concrete C3 snapshots. -/
theorem C3_witness :
    load_from_cache stC3 (CacheState.file 0 (CacheRaw.decoded cEmptyC3)) 0 =
      ({ stC3 with data := [], legend := some [] }, LoadOutcome.notUsable) ∧
    load_from_cache stC3 (CacheState.file 0 CacheRaw.malformed) 0 =
      (stC3, LoadOutcome.notUsable) ∧
    load_from_cache stC3 (CacheState.file (-7200) CacheRaw.malformed) 0 =
      (stC3, LoadOutcome.notUsable) := by
  refine ⟨?_, ?_, ?_⟩
  · have h := C3_amended.2.2.2.2.1 stC3 0 0 cEmptyC3 (by decide) (by rfl) (by rfl)
    simpa using h
  · exact C3_amended.2.2.2.1 stC3 0 0 (by decide)
  · exact C3_amended.2.1 stC3 0 (-7200) CacheRaw.malformed (by decide)

/- ### C4: the cache round trip is not value-identical on the Store -/

/-- The embedded timestamp of the C4 region. -/
def dtC4 : DateTime := ⟨2025, 5, 31, 11, 0, 0⟩

/-- A region as a successful update builds it: embedded datetime objects. -/
def regC4 : Region :=
  { region_id := 50, region_name := "B", partregion_id := -1, partregion_name := "",
    last_update := DTVal.dt dtC4, next_update := DTVal.dt ⟨2025, 6, 1, 11, 0, 0⟩,
    pollen := [] }

/-- Client state for C4: one built region, legend, both timestamps. -/
def stC4 : ApiState :=
  { data := [("50--1", regC4)], legend := some [("0", "none")],
    last_update := some dtC4, next_update := some ⟨2025, 6, 1, 11, 0, 0⟩,
    cache_duration := 3600 }

/-- C4 counterexample: saving `stC4` and loading it back within the cache
window reports "usable" — but the reloaded Store is NOT equal to the saved
one: the datetimes embedded in the region were serialized to ISO strings by
`DateTimeEncoder` and are never converted back. -/
theorem C4_counterexample :
    (load_from_cache stC4 (CacheState.file 0 (CacheRaw.decoded (saveContent stC4))) 0).2 =
      LoadOutcome.usable ∧
    (load_from_cache stC4 (CacheState.file 0 (CacheRaw.decoded (saveContent stC4))) 0).1.data ≠
      stC4.data := by
  refine ⟨by rfl, ?_⟩
  intro h
  have h2 := congrArg (fun d => alookup d "50--1") h
  simp only [show (load_from_cache stC4
      (CacheState.file 0 (CacheRaw.decoded (saveContent stC4))) 0).1.data =
      [("50--1", serRegion regC4)] from rfl] at h2
  have h3 : serRegion regC4 = regC4 := by
    have := congrArg (fun o => o.getD regC4) h2
    simpa [alookup, stC4] using this
  have h4 := congrArg Region.last_update h3
  simp [serRegion, serDTV, regC4] at h4

/-- C4 amended: saving and then loading within the cache window makes no
transport call and reproduces the Legend and both timestamps exactly, and the
Store up to serialization: each region comes back with its embedded datetimes
replaced by their ISO strings (`serStore`); the load reports "usable" exactly
when the Store is nonempty, and a nonempty Store short-circuits `update` into
the cache path with zero transport attempts. -/
theorem C4_amended (st : ApiState) (mtime now : Int) (refd : Date)
    (hfresh : ¬ st.cache_duration < now - mtime)
    (hwf1 : ∀ d, st.last_update = some d → d.WF)
    (hwf2 : ∀ d, st.next_update = some d → d.WF) :
    load_from_cache st (CacheState.file mtime (CacheRaw.decoded (saveContent st))) now =
      ({ st with data := serStore st.data },
       if st.data = [] then LoadOutcome.notUsable else LoadOutcome.usable) ∧
    (st.data ≠ [] → ∀ responses,
      update st (CacheState.file mtime (CacheRaw.decoded (saveContent st))) now
          responses refd false =
        ⟨{ st with data := serStore st.data }, UOutcome.ret true, 0⟩) := by
  have hser : ∀ d : Store, (serStore d = []) = (d = []) := by
    intro d
    simp [serStore]
  have hload : load_from_cache st
      (CacheState.file mtime (CacheRaw.decoded (saveContent st))) now =
      ({ st with data := serStore st.data },
       if st.data = [] then LoadOutcome.notUsable else LoadOutcome.usable) := by
    obtain ⟨sd, sl, slu, snu, scd⟩ := st
    simp only [load_from_cache, saveContent] at hfresh ⊢
    rw [if_neg hfresh]
    cases slu with
    | none =>
      cases snu with
      | none =>
        by_cases hd : sd = [] <;> simp [hd, hser]
      | some d2 =>
        have hwf := hwf2 d2 rfl
        by_cases hd : sd = [] <;> simp [hd, hser, isoformat_ne_empty d2,
          fromisoformatOpt_isoformat d2 hwf]
    | some d1 =>
      have hwf := hwf1 d1 rfl
      cases snu with
      | none =>
        by_cases hd : sd = [] <;> simp [hd, hser, isoformat_ne_empty d1,
          fromisoformatOpt_isoformat d1 hwf]
      | some d2 =>
        have hwf2' := hwf2 d2 rfl
        by_cases hd : sd = [] <;> simp [hd, hser, isoformat_ne_empty d1,
          fromisoformatOpt_isoformat d1 hwf, isoformat_ne_empty d2,
          fromisoformatOpt_isoformat d2 hwf2']
  refine ⟨hload, ?_⟩
  intro hne responses
  simp only [update, Bool.false_eq_true, if_false, hload, hne, if_neg hne]

/-- C4 witness: the amended theorem applied to the concrete C4 state. -/
theorem C4_witness :
    load_from_cache stC4 (CacheState.file 0 (CacheRaw.decoded (saveContent stC4))) 0 =
      ({ stC4 with data := serStore stC4.data }, LoadOutcome.usable) ∧
    (∀ responses,
      update stC4 (CacheState.file 0 (CacheRaw.decoded (saveContent stC4))) 0
          responses ⟨2025, 6, 2⟩ false =
        ⟨{ stC4 with data := serStore stC4.data }, UOutcome.ret true, 0⟩) := by
  have hwfa : ∀ d, stC4.last_update = some d → d.WF := by
    intro d h
    have hd : d = dtC4 := (Option.some.inj h).symm
    subst hd
    norm_num [DateTime.WF, dtC4]
  have hwfb : ∀ d, stC4.next_update = some d → d.WF := by
    intro d h
    have hd : d = ⟨2025, 6, 1, 11, 0, 0⟩ := (Option.some.inj h).symm
    subst hd
    norm_num [DateTime.WF]
  have h := C4_amended stC4 0 0 ⟨2025, 6, 2⟩ (by decide) hwfa hwfb
  refine ⟨?_, ?_⟩
  · have h1 := h.1
    simpa using h1
  · exact h.2 (by intro hc; cases hc)

/- ### C5: retry exhaustion -/

/-- Store resident for the C5 scenario. -/
def regC5 : Region :=
  { region_id := 9, region_name := "R", partregion_id := 9, partregion_name := "P",
    last_update := DTVal.str "x", next_update := DTVal.str "y", pollen := [] }

/-- Client state before the C5 update: a nonempty Store. -/
def stC5 : ApiState :=
  { data := [("9-9", regC5)], legend := some [("0", "none")],
    last_update := none, next_update := none, cache_duration := 3600 }

/-- A fresh decodable snapshot with empty data, for the C5 counterexample. -/
def cEmptyC5 : CacheContent :=
  { data := [], legend := some [], last_update := none, next_update := none }

/-- C5 counterexample: with a transport that fails on every call, the update
does make exactly 3 attempts and surfaces the aggregated `DwdPollenError` — but
the Store is NOT unchanged: the cache gate had already loaded a fresh
empty-data snapshot (reporting it "not usable"), emptying the Store before the
fetch even started. -/
theorem C5_counterexample :
    update stC5 (CacheState.file 0 (CacheRaw.decoded cEmptyC5)) 0 (fun _ => none)
        ⟨2025, 6, 2⟩ false =
      ⟨{ stC5 with data := [], legend := some [] }, UOutcome.exn PyErr.dwdError, 3⟩ ∧
    stC5.data ≠ [] := by
  refine ⟨by rfl, ?_⟩
  intro h
  cases h

/-- C5 amended: a transport collaborator failing on every call makes `get_data`
perform exactly `retry_count` attempts with `retry_count - 1` sleeps of the
fixed `retry_delay` between consecutive attempts (none after the last), then
raise the single aggregated `DwdPollenError`; an `update` reaching the fetch
(forced, or whose cache gate reported "not usable" without touching the state)
makes the default 3 attempts, surfaces that error, and leaves the whole client
state unchanged.  (An unforced update whose cache gate loaded a fresh
empty-data snapshot has already overwritten the Store — see the
counterexample.) -/
theorem C5_amended :
    (∀ (responses : Nat → Option Payload) (rc rd : Nat),
      (∀ i, responses i = none) →
      get_data responses rc rd =
        (Except.error PyErr.dwdError, rc, List.replicate (rc - 1) rd)) ∧
    (∀ (st : ApiState) (cache : CacheState) (now : Int)
       (responses : Nat → Option Payload) (refd : Date) (force : Bool),
      (∀ i, responses i = none) →
      (force = true ∨ load_from_cache st cache now = (st, LoadOutcome.notUsable)) →
      update st cache now responses refd force =
        ⟨st, UOutcome.exn PyErr.dwdError, 3⟩) := by
  refine ⟨get_data_all_fail, ?_⟩
  intro st cache now responses refd force hfail hgate
  cases force with
  | true =>
    simp [update, fetchAndRebuild, get_data_all_fail responses 3 2 hfail]
  | false =>
    rcases hgate with hf | hl
    · cases hf
    · simp [update, hl, fetchAndRebuild, get_data_all_fail responses 3 2 hfail]

/-- C5 witness: the amended theorem applied concretely — five retries with
delay 7 sleep four times, and a forced update against a dead transport leaves
`stC5` untouched after exactly 3 attempts. -/
theorem C5_witness :
    get_data (fun _ => none) 5 7 =
      (Except.error PyErr.dwdError, 5, List.replicate 4 7) ∧
    update stC5 CacheState.missing 0 (fun _ => none) ⟨2025, 6, 2⟩ true =
      ⟨stC5, UOutcome.exn PyErr.dwdError, 3⟩ :=
  ⟨C5_amended.1 (fun _ => none) 5 7 (fun _ => rfl),
   C5_amended.2 stC5 CacheState.missing 0 (fun _ => none) ⟨2025, 6, 2⟩ true
     (fun _ => rfl) (Or.inl rfl)⟩

/- ### C6: the query façade's not-found protocol -/

/-- C6: for a composite key absent from the Store, `get_pollen` makes exactly
one `update(force=True)` call; its result does not depend on the cache or the
clock (the forced update bypasses both); if that update completes (returns
rather than raises) and the key is still absent, the result is the raised
`KeyError` for that key; and a normal return always hands back exactly the
region stored under the key — never an empty stand-in. -/
theorem C6_facade_not_found (st : ApiState) (cache : CacheState) (now : Int)
    (responses : Nat → Option Payload) (refd : Date) (region_id partregion_id : Int)
    (habs : alookup st.data (compKey region_id partregion_id) = none) :
    (get_pollen st cache now responses refd region_id partregion_id).2.2 = 1 ∧
    (∀ (cache' : CacheState) (now' : Int),
      get_pollen st cache' now' responses refd region_id partregion_id =
        get_pollen st cache now responses refd region_id partregion_id) ∧
    (∀ (st' : ApiState) (b : Bool) (n : Nat),
      update st cache now responses refd true = ⟨st', UOutcome.ret b, n⟩ →
      alookup st'.data (compKey region_id partregion_id) = none →
      (get_pollen st cache now responses refd region_id partregion_id).2.1 =
        Except.error (PyErr.keyError (compKey region_id partregion_id))) ∧
    (∀ (stR : ApiState) (res : Except PyErr Region) (n : Nat),
      get_pollen st cache now responses refd region_id partregion_id = (stR, res, n) →
      ∀ r, res = Except.ok r →
        alookup stR.data (compKey region_id partregion_id) = some r) := by
  have hforce : ∀ (c : CacheState) (t : Int),
      update st c t responses refd true = fetchAndRebuild st responses refd := by
    intro c t
    simp [update]
  refine ⟨?_, ?_, ?_, ?_⟩
  · simp only [get_pollen, habs]
    cases hU : update st cache now responses refd true with
    | mk st' oc n =>
      cases oc with
      | ret b =>
        cases hk : alookup st'.data (compKey region_id partregion_id) <;> simp [hk]
      | exn e => simp
  · intro cache' now'
    simp only [get_pollen, habs, hforce]
  · intro st' b n hU habs2
    simp only [get_pollen, habs, hU, habs2]
  · intro stR res n hrun r hres
    simp only [get_pollen, habs] at hrun
    cases hU : update st cache now responses refd true with
    | mk st' oc nn =>
      rw [hU] at hrun
      cases oc with
      | exn e =>
        dsimp only at hrun
        injection hrun with h1 h23
        injection h23 with h2 h3
        rw [← h2] at hres
        cases hres
      | ret b =>
        dsimp only at hrun
        cases hk : alookup st'.data (compKey region_id partregion_id) with
        | none =>
          rw [hk] at hrun
          dsimp only at hrun
          injection hrun with h1 h23
          injection h23 with h2 h3
          rw [← h2] at hres
          cases hres
        | some r0 =>
          rw [hk] at hrun
          dsimp only at hrun
          injection hrun with h1 h23
          injection h23 with h2 h3
          rw [← h2] at hres
          obtain rfl := Except.ok.inj hres
          rw [← h1]
          exact hk

/-- Payload the C6 transport returns: a single region keyed "50--1". -/
def pC6 : Payload :=
  { last_update := "2025-05-31 11:00 Uhr", next_update := "2025-06-01 11:00 Uhr",
    legend := [("id1", "0"), ("id1_desc", "none")], content := [⟨50, "B", -1, "", []⟩] }

/-- Client state for the C6 witness: the requested key "1-2" is absent. -/
def stC6 : ApiState :=
  { data := [], legend := none, last_update := none, next_update := none,
    cache_duration := 3600 }

/-- C6 witness: the theorem applied concretely — looking up the absent key
(1, 2) makes exactly one forced update and produces the `KeyError "1-2"`. -/
theorem C6_witness :
    (get_pollen stC6 CacheState.missing 0 (fun _ => some pC6) ⟨2025, 6, 2⟩ 1 2).2.2 = 1 ∧
    (get_pollen stC6 CacheState.missing 0 (fun _ => some pC6) ⟨2025, 6, 2⟩ 1 2).2.1 =
      Except.error (PyErr.keyError (compKey 1 2)) :=
  ⟨(C6_facade_not_found stC6 CacheState.missing 0 (fun _ => some pC6) ⟨2025, 6, 2⟩ 1 2
      (by rfl)).1,
   (C6_facade_not_found stC6 CacheState.missing 0 (fun _ => some pC6) ⟨2025, 6, 2⟩ 1 2
      (by rfl)).2.2.1
     (update stC6 CacheState.missing 0 (fun _ => some pC6) ⟨2025, 6, 2⟩ true).st true 1
     (by rfl) (by rfl)⟩

end BloomTracker
